import Mathlib

set_option maxRecDepth 4000

/-
Shallow embedding of src/google-calendar-ai-agent/main.py.

The script has four parts that the claims talk about:
  - get_calendar_service : OAuth credential loading, refresh, interactive
    flow, token persistence, and service construction (main.py lines 39-87);
  - create_google_calendar_event : the tool adapter building the request
    body, calling insert, and serializing the result (lines 90-146);
  - run_agent : the per-turn agent wrapper that converts any raised fault
    into an assistant message (lines 169-180);
  - the REPL loop in the main block (lines 212-228).

External effects (file system, network, the provider, the agent runtime)
are modelled as an explicit environment value describing each outcome the
code can observe, and the functions return their result together with a
trace of the effects they perform.
-/

namespace GCalAgent

/- Flat JSON values that appear in the payloads passed to json.dumps. -/
inductive PVal where
  | s (v : String)
  | jnull
deriving DecidableEq, Repr

/- Escaping of one character the way json.dumps escapes strings; the
payload strings in this development contain neither control characters
nor non-ASCII text, so quote and backslash are the relevant cases. -/
def pyEscapeChar (c : Char) : String :=
  if c = '\\' then "\\\\"
  else if c = '"' then "\\\""
  else String.singleton c

def pyEscape (s : String) : String :=
  String.join (s.toList.map pyEscapeChar)

def dumpsStr (s : String) : String :=
  "\"" ++ pyEscape s ++ "\""

def dumpsPVal : PVal → String
  | .s v => dumpsStr v
  | .jnull => "null"

/- json.dumps of a flat object with the default separators: a comma
followed by a space between items, a colon followed by a space after each
key. -/
def dumpsPayload (p : List (String × PVal)) : String :=
  "\x7b" ++ String.intercalate ", " (p.map fun kv => dumpsStr kv.1 ++ ": " ++ dumpsPVal kv.2) ++ "\x7d"

def optPVal : Option String → PVal
  | none => .jnull
  | some v => .s v

/- The state of token.json as the script observes it: missing, present but
unparsable, or parsed into a credential with an expiry state and the
presence or absence of a refresh token. -/
inductive TokenFileState where
  | absent
  | malformed
  | parsed (expired : Bool) (hasRefresh : Bool)
deriving DecidableEq, Repr, Fintype

/- The credential value held in the creds variable: loaded from storage,
produced by a successful refresh, or produced by the interactive flow. -/
inductive Creds where
  | stored (expired : Bool) (hasRefresh : Bool)
  | refreshed
  | fromFlow
deriving DecidableEq, Repr

/- creds.valid: a google Credentials object is valid when it has a token
and is not expired; refreshed and flow-produced credentials are valid. -/
def Creds.valid : Creds → Bool
  | .stored expired _ => !expired
  | .refreshed => true
  | .fromFlow => true

def Creds.isExpired : Creds → Bool
  | .stored expired _ => expired
  | .refreshed => false
  | .fromFlow => false

def Creds.hasRefreshToken : Creds → Bool
  | .stored _ hasRefresh => hasRefresh
  | .refreshed => true
  | .fromFlow => true

/- Outcomes of the external steps get_calendar_service can take. -/
structure AuthEnv where
  tokenFile : TokenFileState
  refreshOk : Bool
  credFileExists : Bool
  flowOk : Bool
  saveOk : Bool
  buildOk : Bool
deriving DecidableEq, Repr, Fintype

/- Fields of the request body built by the tool adapter.  The start and
end entries are nested objects with a dateTime and a timeZone. -/
structure TimeObj where
  dateTime : String
  timeZone : String
deriving DecidableEq, Repr

inductive BodyVal where
  | s (v : String)
  | jnull
  | time (t : TimeObj)
deriving DecidableEq, Repr

def optBodyVal : Option String → BodyVal
  | none => .jnull
  | some v => .s v

/- The event dict literal of main.py lines 117-129, in source order. -/
def eventBody (summary : String) (location description : Option String)
    (start_time end_time timezone : String) : List (String × BodyVal) :=
  [("summary", .s summary),
   ("location", optBodyVal location),
   ("description", optBodyVal description),
   ("start", .time ⟨start_time, timezone⟩),
   ("end", .time ⟨end_time, timezone⟩)]

/- Observable effects, used to state frame and no-retry properties. -/
inductive Effect where
  | logWarn
  | refreshCall
  | interactiveFlow
  | writeTokenFile
  | buildService
  | insertEvent (body : List (String × BodyVal))
deriving DecidableEq, Repr

structure Service where
  creds : Creds
deriving DecidableEq, Repr

/- Loading token.json: a parse failure is logged and leaves creds = None. -/
def loadCreds : TokenFileState → Option Creds
  | .absent => none
  | .malformed => none
  | .parsed e r => some (.stored e r)

def loadEffects : TokenFileState → List Effect
  | .absent => []
  | .malformed => [.logWarn]
  | .parsed _ _ => []

/- The final build step of get_calendar_service: build wraps the creds in
a service object, and any exception yields None. -/
def buildStep (c : Creds) (env : AuthEnv) (effs : List Effect) :
    Option Service × List Effect :=
  if env.buildOk then (some ⟨c⟩, effs ++ [.buildService])
  else (none, effs ++ [.buildService])

/- The re-authentication block guarded by if not creds: missing
credentials.json returns None before launching the flow; a flow failure
returns None; a flow success saves the token and proceeds to build.  The
writeTokenFile effect records the write attempt; a save failure is logged
and non-fatal, so saveOk does not change control flow. -/
def authFlowStep (env : AuthEnv) (effs : List Effect) :
    Option Service × List Effect :=
  if !env.credFileExists then (none, effs)
  else if env.flowOk then
    buildStep Creds.fromFlow env (effs ++ [.interactiveFlow, .writeTokenFile])
  else (none, effs ++ [.interactiveFlow])

/- get_calendar_service, main.py lines 39-87.  Control flow mirrors the
source: load creds; if creds are absent or invalid, refresh when expired
with a refresh token (discarding them on refresh failure), run the
interactive flow when creds are None, then save; finally build. -/
def get_calendar_service (env : AuthEnv) : Option Service × List Effect :=
  let eff0 := loadEffects env.tokenFile
  match loadCreds env.tokenFile with
  | some c =>
    if c.valid then
      buildStep c env eff0
    else
      if c.isExpired && c.hasRefreshToken then
        if env.refreshOk then
          buildStep Creds.refreshed env (eff0 ++ [.refreshCall, .writeTokenFile])
        else
          authFlowStep env (eff0 ++ [.refreshCall])
      else
        buildStep c env (eff0 ++ [.writeTokenFile])
  | none => authFlowStep env eff0

/- Outcome of service.events().insert(...).execute(). -/
inductive InsertOutcome where
  | success (summary htmlLink : Option String)
  | httpError (msg : String)
  | unexpectedError (msg : String)
deriving DecidableEq, Repr

structure ToolEnv where
  auth : AuthEnv
  insert : InsertOutcome
deriving DecidableEq, Repr

/- Default value of the timezone parameter of the tool. -/
def DEFAULT_TIMEZONE : String := "Asia/Singapore"

/- create_google_calendar_event, main.py lines 90-146, split into the
payload it passes to json.dumps plus the effect trace.  A None service
yields the authentication error payload; otherwise the insert is
attempted once and its outcome mapped to the success payload, the
HttpError payload, or the unexpected-error payload. -/
def create_google_calendar_event_run (summary start_time end_time : String)
    (description location : Option String) (timezone : String) (env : ToolEnv) :
    List (String × PVal) × List Effect :=
  match get_calendar_service env.auth with
  | (none, effs) =>
    ([("error", .s "Failed to get Google Calendar service. Check authentication.")], effs)
  | (some _, effs) =>
    let body := eventBody summary location description start_time end_time timezone
    match env.insert with
    | .success s l =>
      ([("status", .s "success"), ("summary", optPVal s), ("htmlLink", optPVal l)],
       effs ++ [.insertEvent body])
    | .httpError msg =>
      ([("error", .s msg)], effs ++ [.insertEvent body])
    | .unexpectedError msg =>
      ([("error", .s ("An unexpected error occurred: " ++ msg))], effs ++ [.insertEvent body])

/- The string actually returned by the tool. -/
def create_google_calendar_event (summary start_time end_time : String)
    (description location : Option String) (timezone : String) (env : ToolEnv) :
    String :=
  dumpsPayload
    (create_google_calendar_event_run summary start_time end_time description
      location timezone env).1

def isInsert : Effect → Bool
  | .insertEvent _ => true
  | _ => false

/- Conversation messages. -/
inductive Msg where
  | human (content : String)
  | assistant (content : String)
deriving DecidableEq, Repr

def Msg.content : Msg → String
  | .human c => c
  | .assistant c => c

/- Outcome of agent.invoke inside run_agent: either a final assistant
message or a raised exception with a message. -/
inductive AgentOutcome where
  | ok (content : String)
  | raised (msg : String)
deriving DecidableEq, Repr

/- run_agent, main.py lines 169-180: the invoke result is returned as the
last message; any exception becomes an assistant-style error message. -/
def run_agent (user_input : String) (history : List Msg)
    (outcome : AgentOutcome) : Msg :=
  match outcome with
  | .ok c => .assistant c
  | .raised e =>
    .assistant ("Error: " ++ e ++ "\n\nPlease try rephrasing your request or provide more specific details.")

/- Python str.strip and str.lower, modelled on the character list of the
string.  The exit keywords are ASCII, so ASCII lowering is faithful
here. -/
def pySpace (c : Char) : Bool :=
  c = ' ' || c = '\t' || c = '\n' || c = '\r' || c = '\x0b' || c = '\x0c'

def pyStrip (s : String) : String :=
  ⟨((s.data.dropWhile pySpace).reverse.dropWhile pySpace).reverse⟩

def pyLowerChar (c : Char) : Char :=
  if 'A' ≤ c ∧ c ≤ 'Z' then Char.ofNat (c.toNat + 32) else c

def pyLower (s : String) : String := ⟨s.data.map pyLowerChar⟩

/- The exit keywords checked by the loop, main.py line 218. -/
def exitCommands : List String := ["quit", "exit", "q", ""]

inductive LoopStep where
  | exited (history : List Msg)
  | continued (history : List Msg) (printed : String)
deriving DecidableEq, Repr

/- One iteration of the REPL loop, main.py lines 214-228: strip the raw
line, break on an exit keyword, otherwise run the agent and extend the
history with the human message and the response. -/
def loopTurn (history : List Msg) (rawInput : String)
    (outcome : AgentOutcome) : LoopStep :=
  let user_input := pyStrip rawInput
  if exitCommands.contains (pyLower user_input) then .exited history
  else
    let response := run_agent user_input history outcome
    .continued (history ++ [.human user_input, response]) response.content

/- Startup of the main block, lines 193-200: a None service prints a
fatal error and exits with code 1 before the conversation loop. -/
inductive StartupOutcome where
  | exitCode1
  | readyLoop
deriving DecidableEq, Repr

def mainStartup (env : AuthEnv) : StartupOutcome :=
  match (get_calendar_service env).1 with
  | some _ => .readyLoop
  | none => .exitCode1

/- Concrete environments used in scenario theorems and witnesses. -/

/- A stored credential that is valid and unexpired; every external step
succeeds. -/
def demoAuthEnv : AuthEnv := ⟨.parsed false true, true, true, true, true, true⟩

/- The mock provider of the success scenario. -/
def demoSuccessEnv : ToolEnv :=
  ⟨demoAuthEnv, .success (some "Gym") (some "https://calendar.google.com/x")⟩

/- A provider that rejects the insert with an HTTP error. -/
def demoHttpErrorEnv : ToolEnv := ⟨demoAuthEnv, .httpError "forbidden"⟩

/- No stored credential and no credentials.json. -/
def missingSecretEnv : AuthEnv := ⟨.absent, true, false, true, true, true⟩

/- A stored credential that is expired and has no refresh token. -/
def staleCredsEnv : AuthEnv := ⟨.parsed true false, true, true, true, true, true⟩

end GCalAgent

namespace GCalAgent

/- Helper lemmas shared by the claim theorems. -/

/- Session acquisition never performs an insert. -/
theorem get_calendar_service_no_insert (env : AuthEnv) :
    (get_calendar_service env).2.countP isInsert = 0 := by
  revert env; decide

/- The effect trace of the tool adapter: the effects of session
acquisition, followed by exactly one insert when a service was obtained
and none otherwise. -/
theorem run_effects (summary start_time end_time : String)
    (description location : Option String) (timezone : String) (env : ToolEnv) :
    (create_google_calendar_event_run summary start_time end_time description
        location timezone env).2
      = (get_calendar_service env.auth).2 ++
        (if (get_calendar_service env.auth).1.isSome then
          [Effect.insertEvent
            (eventBody summary location description start_time end_time timezone)]
         else []) := by
  unfold create_google_calendar_event_run
  rcases hsvc : get_calendar_service env.auth with ⟨osvc, effs⟩
  cases osvc <;> cases env.insert <;> simp

/- Any body carried by an insert effect of a tool run is the body built
from the given arguments. -/
theorem insert_body_unique (summary start_time end_time : String)
    (description location : Option String) (timezone : String) (env : ToolEnv)
    (b : List (String × BodyVal))
    (hmem : Effect.insertEvent b ∈ (create_google_calendar_event_run summary
        start_time end_time description location timezone env).2) :
    b = eventBody summary location description start_time end_time timezone := by
  rw [run_effects] at hmem
  rcases List.mem_append.mp hmem with hin | hin
  · exact absurd (List.countP_eq_zero.mp (get_calendar_service_no_insert env.auth)
      _ hin) (by simp [isInsert])
  · rcases hif : (get_calendar_service env.auth).1.isSome with _ | _ <;>
      rw [hif] at hin <;> simp_all

/- When a service is obtained, the insert with the built body is attempted. -/
theorem insert_attempted (summary start_time end_time : String)
    (description location : Option String) (timezone : String) (env : ToolEnv)
    (hsvc : (get_calendar_service env.auth).1.isSome = true) :
    Effect.insertEvent (eventBody summary location description start_time end_time timezone)
      ∈ (create_google_calendar_event_run summary start_time end_time description
          location timezone env).2 := by
  rw [run_effects, hsvc]
  simp

/- An HttpError from the provider becomes the single-key error payload
carrying the provider message. -/
theorem httpError_payload (summary start_time end_time : String)
    (description location : Option String) (timezone : String) (env : ToolEnv)
    (msg : String)
    (hsvc : (get_calendar_service env.auth).1.isSome = true)
    (hins : env.insert = .httpError msg) :
    (create_google_calendar_event_run summary start_time end_time description
        location timezone env).1 = [("error", PVal.s msg)] := by
  unfold create_google_calendar_event_run
  rcases h : get_calendar_service env.auth with ⟨osvc, effs⟩
  rw [h] at hsvc
  cases osvc
  · simp at hsvc
  · rw [hins]

/-- Claim C1: every invocation of the tool adapter, whatever the session
acquisition and the provider do, yields a structured payload that is
serialized with json.dumps and returned (an error payload or the success
payload), never an uncaught fault, and the insert request is attempted at
most once, so no retry happens on failure. -/
theorem C1_tool_always_returns_no_retry (summary start_time end_time : String)
    (description location : Option String) (timezone : String) (env : ToolEnv) :
    ((∃ m, (create_google_calendar_event_run summary start_time end_time description
        location timezone env).1 = [("error", PVal.s m)]) ∨
     (∃ s l, (create_google_calendar_event_run summary start_time end_time description
        location timezone env).1
          = [("status", PVal.s "success"), ("summary", optPVal s), ("htmlLink", optPVal l)])) ∧
    create_google_calendar_event summary start_time end_time description location timezone env
      = dumpsPayload (create_google_calendar_event_run summary start_time end_time
          description location timezone env).1 ∧
    (create_google_calendar_event_run summary start_time end_time description
        location timezone env).2.countP isInsert ≤ 1 := by
  refine ⟨?_, rfl, ?_⟩
  · unfold create_google_calendar_event_run
    rcases hsvc : get_calendar_service env.auth with ⟨osvc, effs⟩
    cases osvc <;> cases env.insert <;> simp
  · rw [run_effects, List.countP_append, get_calendar_service_no_insert]
    rcases (get_calendar_service env.auth).1.isSome <;> simp [isInsert]

/-- Claim C2 as stated is false: the serialized success payload uses the
key htmlLink rather than link, and the failure payload has the single key
error rather than the pair error and message; both shown on the concrete
scenario inputs. -/
theorem C2_counterexample :
    ((create_google_calendar_event_run "Gym" "2025-11-05T18:00:00" "2025-11-05T19:00:00"
        none none DEFAULT_TIMEZONE demoSuccessEnv).1.map Prod.fst
      ≠ ["status", "summary", "link"]) ∧
    ((create_google_calendar_event_run "Gym" "2025-11-05T18:00:00" "2025-11-05T19:00:00"
        none none DEFAULT_TIMEZONE demoHttpErrorEnv).1.map Prod.fst
      ≠ ["error", "message"]) := by
  decide

/-- Claim C2 amended: for every invocation the payload keys are exactly
status, summary, htmlLink in order precisely on success, that is when a
session was obtained and the provider insert succeeded, and exactly the
single key error precisely on failure, that is when session acquisition
returned no service or the insert raised a provider or unexpected
error. -/
theorem C2_payload_keys (summary start_time end_time : String)
    (description location : Option String) (timezone : String) (env : ToolEnv) :
    (((create_google_calendar_event_run summary start_time end_time description
        location timezone env).1.map Prod.fst = ["status", "summary", "htmlLink"]) ↔
      ((get_calendar_service env.auth).1.isSome = true ∧
        ∃ s l, env.insert = .success s l)) ∧
    (((create_google_calendar_event_run summary start_time end_time description
        location timezone env).1.map Prod.fst = ["error"]) ↔
      ((get_calendar_service env.auth).1 = none ∨
        (∃ m, env.insert = .httpError m) ∨
        (∃ m, env.insert = .unexpectedError m))) := by
  rcases hsvc : get_calendar_service env.auth with ⟨osvc, effs⟩
  unfold create_google_calendar_event_run
  rw [hsvc]
  cases osvc <;> cases hins : env.insert <;> simp_all

/-- Claim C3 as stated is false: on the scenario input against the mock
provider, the tool output is not the compact JSON string without spaces,
because json.dumps uses a comma-space and colon-space as separators. -/
theorem C3_counterexample :
    create_google_calendar_event "Gym" "2025-11-05T18:00:00" "2025-11-05T19:00:00"
        none none DEFAULT_TIMEZONE demoSuccessEnv
      ≠ "\x7b\"status\":\"success\",\"summary\":\"Gym\",\"htmlLink\":\"https://calendar.google.com/x\"\x7d" := by
  decide

/-- Claim C3 amended: on the scenario input with the mock provider
response, the tool output is exactly the json.dumps rendering with the
default separators, which put a space after each comma and colon. -/
theorem C3_success_scenario_output :
    create_google_calendar_event "Gym" "2025-11-05T18:00:00" "2025-11-05T19:00:00"
        none none DEFAULT_TIMEZONE demoSuccessEnv
      = "\x7b\"status\": \"success\", \"summary\": \"Gym\", \"htmlLink\": \"https://calendar.google.com/x\"\x7d" := by
  decide

/-- Claim C4: for arguments whose end time is strictly before the start
time, the adapter performs no local validation: any insert effect carries
exactly the body built from the given start and end times, the insert is
attempted whenever a session is obtained, and a provider HTTP error
surfaces as the provider-error payload rather than a locally raised
fault. -/
theorem C4_no_local_time_validation (summary start_time end_time : String)
    (description location : Option String) (timezone : String) (env : ToolEnv)
    (hlt : end_time.data < start_time.data) :
    (∀ b, Effect.insertEvent b ∈ (create_google_calendar_event_run summary start_time
        end_time description location timezone env).2 →
      b = eventBody summary location description start_time end_time timezone) ∧
    ((get_calendar_service env.auth).1.isSome = true →
      Effect.insertEvent (eventBody summary location description start_time end_time timezone)
        ∈ (create_google_calendar_event_run summary start_time end_time description
            location timezone env).2) ∧
    (∀ msg, env.insert = .httpError msg →
      (get_calendar_service env.auth).1.isSome = true →
      (create_google_calendar_event_run summary start_time end_time description
          location timezone env).1 = [("error", PVal.s msg)]) := by
  refine ⟨?_, ?_, ?_⟩
  · intro b hb
    exact insert_body_unique summary start_time end_time description location timezone env b hb
  · intro hsvc
    exact insert_attempted summary start_time end_time description location timezone env hsvc
  · intro msg hins hsvc
    exact httpError_payload summary start_time end_time description location timezone env msg hsvc hins

/-- Claim C4 witness: the concrete scenario with the end one hour before
the start, against a provider that rejects the insert. -/
theorem C4_no_local_time_validation_witness :
    ("2025-11-05T17:00:00" : String).data < ("2025-11-05T18:00:00" : String).data ∧
    ((∀ b, Effect.insertEvent b ∈ (create_google_calendar_event_run "Gym"
        "2025-11-05T18:00:00" "2025-11-05T17:00:00" none none DEFAULT_TIMEZONE
        demoHttpErrorEnv).2 →
      b = eventBody "Gym" none none "2025-11-05T18:00:00" "2025-11-05T17:00:00" DEFAULT_TIMEZONE) ∧
    ((get_calendar_service demoHttpErrorEnv.auth).1.isSome = true →
      Effect.insertEvent (eventBody "Gym" none none "2025-11-05T18:00:00"
          "2025-11-05T17:00:00" DEFAULT_TIMEZONE)
        ∈ (create_google_calendar_event_run "Gym" "2025-11-05T18:00:00"
            "2025-11-05T17:00:00" none none DEFAULT_TIMEZONE demoHttpErrorEnv).2) ∧
    (∀ msg, demoHttpErrorEnv.insert = .httpError msg →
      (get_calendar_service demoHttpErrorEnv.auth).1.isSome = true →
      (create_google_calendar_event_run "Gym" "2025-11-05T18:00:00"
          "2025-11-05T17:00:00" none none DEFAULT_TIMEZONE demoHttpErrorEnv).1
        = [("error", PVal.s msg)])) :=
  ⟨by decide,
   C4_no_local_time_validation "Gym" "2025-11-05T18:00:00" "2025-11-05T17:00:00"
     none none DEFAULT_TIMEZONE demoHttpErrorEnv (by decide)⟩

/-- Claim C5: with no stored token file and no credentials.json, session
acquisition returns None without launching the interactive flow, and the
main block exits with code 1 before entering the conversation loop. -/
theorem C5_missing_client_secret (env : AuthEnv)
    (htok : env.tokenFile = .absent) (hcred : env.credFileExists = false) :
    (get_calendar_service env).1 = none ∧
    Effect.interactiveFlow ∉ (get_calendar_service env).2 ∧
    mainStartup env = .exitCode1 := by
  revert htok hcred
  revert env
  decide

/-- Claim C5 witness: the concrete environment with no token file and no
credentials file. -/
theorem C5_missing_client_secret_witness :
    missingSecretEnv.tokenFile = .absent ∧
    missingSecretEnv.credFileExists = false ∧
    ((get_calendar_service missingSecretEnv).1 = none ∧
     Effect.interactiveFlow ∉ (get_calendar_service missingSecretEnv).2 ∧
     mainStartup missingSecretEnv = .exitCode1) :=
  ⟨by decide, by decide,
   C5_missing_client_secret missingSecretEnv (by decide) (by decide)⟩

/-- Claim C6 names a bug in the code: for a stored credential that is
expired and has no refresh token, the guard that launches the interactive
flow tests whether creds is None, and the loaded credential object is not
None, so the flow is skipped, the stale credential is written back to the
token file, and a service built on the expired credential is returned.
This theorem evaluates the code at that failing input: the session comes
back holding the stored expired credential, no interactive flow runs, and
the token write happens. -/
theorem C6_stale_session_returned :
    (get_calendar_service staleCredsEnv).1 = some ⟨Creds.stored true false⟩ ∧
    Effect.interactiveFlow ∉ (get_calendar_service staleCredsEnv).2 ∧
    Effect.refreshCall ∉ (get_calendar_service staleCredsEnv).2 ∧
    Effect.writeTokenFile ∈ (get_calendar_service staleCredsEnv).2 := by
  decide

/-- Claim C7: for every stored credential that is valid and unexpired,
session acquisition performs neither the token-refresh request nor the
interactive flow, does not rewrite the token file, and returns the
session built on the stored credential whenever service construction
succeeds. -/
theorem C7_valid_credential_frame (env : AuthEnv) (r : Bool)
    (h : env.tokenFile = .parsed false r) :
    Effect.refreshCall ∉ (get_calendar_service env).2 ∧
    Effect.interactiveFlow ∉ (get_calendar_service env).2 ∧
    Effect.writeTokenFile ∉ (get_calendar_service env).2 ∧
    (env.buildOk = true → (get_calendar_service env).1 = some ⟨Creds.stored false r⟩) := by
  revert h
  revert r
  revert env
  decide

/-- Claim C7 witness: the concrete environment holding a valid unexpired
credential. -/
theorem C7_valid_credential_frame_witness :
    demoAuthEnv.tokenFile = .parsed false true ∧
    (Effect.refreshCall ∉ (get_calendar_service demoAuthEnv).2 ∧
     Effect.interactiveFlow ∉ (get_calendar_service demoAuthEnv).2 ∧
     Effect.writeTokenFile ∉ (get_calendar_service demoAuthEnv).2 ∧
     (demoAuthEnv.buildOk = true →
        (get_calendar_service demoAuthEnv).1 = some ⟨Creds.stored false true⟩)) :=
  ⟨by decide, C7_valid_credential_frame demoAuthEnv true (by decide)⟩

/-- Claim C8: any exception raised while running a turn is converted by
run_agent into an assistant-style error message, every turn on a non-exit
input continues the loop with a printed response, and a provider HTTP
error inside a tool call becomes the error payload carrying the provider
message. -/
theorem C8_turn_faults_contained (history : List Msg) (rawInput : String)
    (outcome : AgentOutcome)
    (hexit : exitCommands.contains (pyLower (pyStrip rawInput)) = false) :
    (∀ e, run_agent (pyStrip rawInput) history (.raised e)
      = .assistant ("Error: " ++ e ++ "\n\nPlease try rephrasing your request or provide more specific details.")) ∧
    (∃ c, run_agent (pyStrip rawInput) history outcome = .assistant c) ∧
    (loopTurn history rawInput outcome
      = .continued (history ++ [.human (pyStrip rawInput), run_agent (pyStrip rawInput) history outcome])
          (run_agent (pyStrip rawInput) history outcome).content) ∧
    (∀ (msg summary start_time end_time timezone : String)
        (description location : Option String) (env : ToolEnv),
      env.insert = .httpError msg →
      (get_calendar_service env.auth).1.isSome = true →
      (create_google_calendar_event_run summary start_time end_time description
          location timezone env).1 = [("error", PVal.s msg)]) := by
  refine ⟨fun e => rfl, ?_, ?_, ?_⟩
  · cases outcome <;> exact ⟨_, rfl⟩
  · have h2 : pyLower (pyStrip rawInput) ∉ exitCommands := by simpa using hexit
    simp [loopTurn, h2]
  · intro msg s st et tz d l env hins hsvc
    exact httpError_payload s st et d l tz env msg hsvc hins

/-- Claim C8 witness: a turn whose agent invocation raises, on the input
hello, with the concrete HTTP-error tool environment covered through the
universally quantified final conjunct. -/
theorem C8_turn_faults_contained_witness :
    exitCommands.contains (pyLower (pyStrip "hello")) = false ∧
    ((∀ e, run_agent (pyStrip "hello") [] (.raised e)
      = .assistant ("Error: " ++ e ++ "\n\nPlease try rephrasing your request or provide more specific details.")) ∧
    (∃ c, run_agent (pyStrip "hello") [] (.raised "boom") = .assistant c) ∧
    (loopTurn [] "hello" (.raised "boom")
      = .continued ([] ++ [.human (pyStrip "hello"),
            run_agent (pyStrip "hello") [] (.raised "boom")])
          (run_agent (pyStrip "hello") [] (.raised "boom")).content) ∧
    (∀ (msg summary start_time end_time timezone : String)
        (description location : Option String) (env : ToolEnv),
      env.insert = .httpError msg →
      (get_calendar_service env.auth).1.isSome = true →
      (create_google_calendar_event_run summary start_time end_time description
          location timezone env).1 = [("error", PVal.s msg)])) :=
  ⟨by decide, C8_turn_faults_contained [] "hello" (.raised "boom") (by decide)⟩

/-- Claim C9: a non-exit turn extends the history with exactly one human
message followed by the one assistant message, leaving every earlier
message in place, and an exit turn leaves the loop with the history
unchanged and unpersisted. -/
theorem C9_history_append_only (history : List Msg) (rawInput : String)
    (outcome : AgentOutcome)
    (hexit : exitCommands.contains (pyLower (pyStrip rawInput)) = false) :
    (loopTurn history rawInput outcome
      = .continued (history ++ [.human (pyStrip rawInput), run_agent (pyStrip rawInput) history outcome])
          (run_agent (pyStrip rawInput) history outcome).content) ∧
    (∀ s : String, exitCommands.contains (pyLower (pyStrip s)) = true →
      loopTurn history s outcome = .exited history) := by
  constructor
  · have h2 : pyLower (pyStrip rawInput) ∉ exitCommands := by simpa using hexit
    simp [loopTurn, h2]
  · intro s hs
    have h3 : pyLower (pyStrip s) ∈ exitCommands := by simpa using hs
    simp [loopTurn, h3]

/-- Claim C9 witness: one regular turn from a two-message history, and
the exit conjunct instantiated in the theorem. -/
theorem C9_history_append_only_witness :
    exitCommands.contains (pyLower (pyStrip "hello")) = false ∧
    ((loopTurn [Msg.human "hi", Msg.assistant "yo"] "hello" (.ok "done")
      = .continued ([Msg.human "hi", Msg.assistant "yo"]
            ++ [.human (pyStrip "hello"),
                run_agent (pyStrip "hello") [Msg.human "hi", Msg.assistant "yo"] (.ok "done")])
          (run_agent (pyStrip "hello")
            [Msg.human "hi", Msg.assistant "yo"] (.ok "done")).content) ∧
    (∀ s : String, exitCommands.contains (pyLower (pyStrip s)) = true →
      loopTurn [Msg.human "hi", Msg.assistant "yo"] s (.ok "done")
        = .exited [Msg.human "hi", Msg.assistant "yo"])) :=
  ⟨by decide,
   C9_history_append_only [Msg.human "hi", Msg.assistant "yo"] "hello" (.ok "done") (by decide)⟩

/-- Claim C10: the request body always carries the keys summary,
location, description, start and end in source order; an absent
description or location is present with a null value rather than
omitted; the single timezone argument is placed in both the start and
the end objects; and any body carried to the provider is exactly this
one. -/
theorem C10_request_body_shape (summary start_time end_time timezone : String)
    (description location : Option String) :
    ((eventBody summary location description start_time end_time timezone).map Prod.fst
      = ["summary", "location", "description", "start", "end"]) ∧
    ((eventBody summary location description start_time end_time timezone).lookup "location"
      = some (optBodyVal location)) ∧
    ((eventBody summary location description start_time end_time timezone).lookup "description"
      = some (optBodyVal description)) ∧
    (location = none → optBodyVal location = .jnull) ∧
    (description = none → optBodyVal description = .jnull) ∧
    ((eventBody summary location description start_time end_time timezone).lookup "start"
      = some (.time ⟨start_time, timezone⟩)) ∧
    ((eventBody summary location description start_time end_time timezone).lookup "end"
      = some (.time ⟨end_time, timezone⟩)) ∧
    (∀ (env : ToolEnv) b,
      Effect.insertEvent b ∈ (create_google_calendar_event_run summary start_time end_time
          description location timezone env).2 →
      b = eventBody summary location description start_time end_time timezone) := by
  refine ⟨rfl, rfl, rfl, fun h => by subst h; rfl, fun h => by subst h; rfl, rfl, rfl, ?_⟩
  intro env b hb
  exact insert_body_unique summary start_time end_time description location timezone env b hb

/-- Claim C10 witness: the scenario body with no description and no
location, showing both keys present with null values and the timezone in
both time objects. -/
theorem C10_request_body_shape_witness :
    ((eventBody "Gym" none none "2025-11-05T18:00:00" "2025-11-05T19:00:00"
        DEFAULT_TIMEZONE).lookup "location" = some BodyVal.jnull) ∧
    ((eventBody "Gym" none none "2025-11-05T18:00:00" "2025-11-05T19:00:00"
        DEFAULT_TIMEZONE).lookup "description" = some BodyVal.jnull) ∧
    ((eventBody "Gym" none none "2025-11-05T18:00:00" "2025-11-05T19:00:00"
        DEFAULT_TIMEZONE).map Prod.fst
      = ["summary", "location", "description", "start", "end"]) ∧
    ((eventBody "Gym" none none "2025-11-05T18:00:00" "2025-11-05T19:00:00"
        DEFAULT_TIMEZONE).lookup "start"
      = some (BodyVal.time ⟨"2025-11-05T18:00:00", DEFAULT_TIMEZONE⟩)) ∧
    ((eventBody "Gym" none none "2025-11-05T18:00:00" "2025-11-05T19:00:00"
        DEFAULT_TIMEZONE).lookup "end"
      = some (BodyVal.time ⟨"2025-11-05T19:00:00", DEFAULT_TIMEZONE⟩)) := by
  obtain ⟨hkeys, hloc, hdesc, hlocnull, hdescnull, hstart, hend, hbody⟩ :=
    C10_request_body_shape "Gym" "2025-11-05T18:00:00" "2025-11-05T19:00:00"
      DEFAULT_TIMEZONE none none
  exact ⟨hloc, hdesc, hkeys, hstart, hend⟩

end GCalAgent
